import Mathlib

/- A shallow embedding of mopidy_raspberry_gpio/frontend.py: pin settings,
the event dispatcher with its handlers, and the GPIO polling loop, modelled
as pure functions with explicit state passing and a trace of observable
actions (hardware reads, event dispatches, sleeps).  Python exceptions are
modelled with an explicit error value that propagates exactly where the
source lets an exception propagate.  The rotary-encoder decoder
(rotencoder.py) is not part of the available sources and is modelled from
the specification where needed. -/

def HIGH : Bool := true

def LOW : Bool := false

inductive PyExc
  | attributeError
  | keyError
  | runtimeError (msg : String)
  | hardwareError (pin : Nat)
deriving DecidableEq

structure Options where
  rotenc_id : Option Nat := none
  step : Option Int := none
  uri : Option String := none
deriving DecidableEq

structure PinSettings where
  active : String
  event : String
  bouncetime : Nat
  options : Options
deriving DecidableEq

inductive PlaybackState
  | playing
  | paused
  | stopped
deriving DecidableEq

structure Track where
  uri : String
deriving DecidableEq

structure Playlist where
  tracks : List Track
deriving DecidableEq

structure CoreState where
  playback_state : PlaybackState
  volume : Int
  tracklist : List Track
  playlists : List (String × Playlist)
  track_pos : Int
deriving DecidableEq

def handle_play_pause (_config : Options) (c : CoreState) : CoreState :=
  if c.playback_state = PlaybackState.playing then
    { c with playback_state := PlaybackState.paused }
  else
    { c with playback_state := PlaybackState.playing }

def handle_play_stop (_config : Options) (c : CoreState) : CoreState :=
  if c.playback_state = PlaybackState.playing then
    { c with playback_state := PlaybackState.stopped }
  else
    { c with playback_state := PlaybackState.playing }

def handle_next (_config : Options) (c : CoreState) : CoreState :=
  { c with track_pos := c.track_pos + 1 }

def handle_prev (_config : Options) (c : CoreState) : CoreState :=
  { c with track_pos := c.track_pos - 1 }

def handle_volume_up (config : Options) (c : CoreState) : CoreState :=
  let step := config.step.getD 5
  let volume := c.volume
  let volume := min (volume + step) 100
  { c with volume := volume }

def handle_volume_down (config : Options) (c : CoreState) : CoreState :=
  let step := config.step.getD 5
  let volume := c.volume
  let volume := max (volume - step) 0
  { c with volume := volume }

def lookup_playlist (c : CoreState) (uri : Option String) : Option Playlist :=
  uri.bind fun u => (c.playlists.find? fun p => p.1 == u).map fun p => p.2

def handle_playlist (config : Options) (c : CoreState) : Except PyExc CoreState :=
  match lookup_playlist c config.uri with
  | none => .error PyExc.attributeError
  | some pl =>
    let c1 := { c with tracklist := [] }
    let c2 := { c1 with tracklist := c1.tracklist ++ pl.tracks }
    .ok { c2 with playback_state := PlaybackState.playing }

def evalHandler (event : String) (options : Options) (c : CoreState) :
    Except PyExc CoreState :=
  match event with
  | "play_pause" => .ok (handle_play_pause options c)
  | "play_stop" => .ok (handle_play_stop options c)
  | "next" => .ok (handle_next options c)
  | "prev" => .ok (handle_prev options c)
  | "volume_up" => .ok (handle_volume_up options c)
  | "volume_down" => .ok (handle_volume_down options c)
  | "playlist" => handle_playlist options c
  | _ => .error PyExc.attributeError

def dispatch_input (event : String) (options : Options) (c : CoreState) :
    Except PyExc CoreState :=
  match evalHandler event options c with
  | .error PyExc.attributeError =>
    .error (PyExc.runtimeError ("Could not find input handler for event: " ++ event))
  | r => r

inductive Act
  | read (pin : Nat) (level : Bool)
  | dispatch (event : String)
  | sleepUs (us : Nat)
deriving DecidableEq

inductive RotDir
  | cw
  | ccw
deriving DecidableEq

/-- Modelled from the spec: the clockwise successor in the 4-state Gray
cycle 00 -> 01 -> 11 -> 10 -> 00 of the quadrature decoder of
rotencoder.py, which is not among the available sources. -/
def gray_next : Fin 4 → Fin 4
  | 0 => 1
  | 1 => 3
  | 3 => 2
  | 2 => 0

/-- Modelled from the spec: the quadrature decoder of rotencoder.py is not
among the available sources; a transition to the clockwise-adjacent state
yields a clockwise event, to the counter-clockwise-adjacent state a
counter-clockwise event, and any other transition yields nothing. -/
def rot_direction (prev next : Fin 4) : Option RotDir :=
  if next = gray_next prev then some RotDir.cw
  else if prev = gray_next next then some RotDir.ccw
  else none

structure RotEncoder where
  id : Nat
  pins : List (Nat × String)
  state : Fin 4

/-- Modelled from the spec: rotencoder.py (class RotEncoder, method
get_event) is not among the available sources.  Per the spec the decoder
reads its two member lines (role A first, role B second), recomputes the
2-bit state, compares it with the stored state through the Gray-cycle
adjacency table, emits at most one directional event and applies no
debounce delay; a group with fewer than two bound pins reports no event. -/
def RotEncoder.get_event (read : Nat → Except PyExc Bool) (e : RotEncoder) :
    List Act × Except PyExc (Option String × RotEncoder) :=
  match e.pins with
  | (pa, eva) :: (pb, evb) :: _ =>
    match read pa with
    | .error ex => ([], .error ex)
    | .ok la =>
      match read pb with
      | .error ex => ([Act.read pa la], .error ex)
      | .ok lb =>
        let s2 : Fin 4 := if la then (if lb then 3 else 2) else (if lb then 1 else 0)
        let ev : Option String :=
          match rot_direction e.state s2 with
          | some RotDir.cw => some eva
          | some RotDir.ccw => some evb
          | none => none
        ([Act.read pa la, Act.read pb lb], .ok (ev, { e with state := s2 }))
  | _ => ([], .ok (none, e))

structure Frontend where
  pin_settings : List (Nat × PinSettings)
  rot_encoders : List (Nat × RotEncoder)
  last_states : Nat → Bool

def lookupPin (l : List (Nat × PinSettings)) (pin : Nat) : Option PinSettings :=
  (l.find? fun p => p.1 == pin).map fun p => p.2

def lookupEnc (l : List (Nat × RotEncoder)) (rid : Nat) : Option RotEncoder :=
  (l.find? fun p => p.1 == rid).map fun p => p.2

def setEncoder (l : List (Nat × RotEncoder)) (rid : Nat) (e : RotEncoder) :
    List (Nat × RotEncoder) :=
  l.map fun p => if p.1 = rid then (p.1, e) else p

def setLast (f : Frontend) (pin : Nat) (lvl : Bool) : Frontend :=
  { f with last_states := fun q => if q = pin then lvl else f.last_states q }

def find_pin_rotenc (f : Frontend) (pin : Nat) : Option RotEncoder :=
  (f.rot_encoders.map fun p => p.2).find? fun e => e.pins.any fun q => q.1 == pin

def gpio_event (read : Nat → Except PyExc Bool) (f : Frontend) (c : CoreState)
    (pin : Nat) : List Act × Frontend × CoreState × Option PyExc :=
  match lookupPin f.pin_settings pin with
  | none => ([], f, c, some PyExc.keyError)
  | some settings =>
    match find_pin_rotenc f pin with
    | some enc =>
      match RotEncoder.get_event read enc with
      | (tre, .error e) => (tre, f, c, some e)
      | (tre, .ok (ev, enc2)) =>
        let f1 := { f with rot_encoders := setEncoder f.rot_encoders enc.id enc2 }
        match ev with
        | some evName =>
          match dispatch_input evName settings.options c with
          | .error e => (tre ++ [Act.dispatch evName], f1, c, some e)
          | .ok c2 => (tre ++ [Act.dispatch evName], f1, c2, none)
        | none => (tre, f1, c, none)
    | none =>
      if settings.event == "" then ([], f, c, none)
      else
        match dispatch_input settings.event settings.options c with
        | .error e => ([Act.dispatch settings.event], f, c, some e)
        | .ok c2 => ([Act.dispatch settings.event], f, c2, none)

def button_edge (active : String) (last state : Bool) : Bool :=
  let active_low : Bool := !(active == "active_high")
  (active_low && (last == HIGH) && (state == LOW)) ||
    (!active_low && (last == LOW) && (state == HIGH))

def pollPin (read : Nat → Except PyExc Bool) (f : Frontend) (c : CoreState)
    (pin : Nat) (s : PinSettings) :
    List Act × Frontend × CoreState × Option PyExc :=
  match read pin with
  | .error e => ([], f, c, some e)
  | .ok state =>
    let tr0 := [Act.read pin state]
    let last := f.last_states pin
    match s.options.rotenc_id with
    | some rid =>
      if state == last then (tr0, setLast f pin state, c, none)
      else
        match lookupEnc f.rot_encoders rid with
        | none => (tr0, f, c, some PyExc.keyError)
        | some enc =>
          match RotEncoder.get_event read enc with
          | (tre, .error e) => (tr0 ++ tre, f, c, some e)
          | (tre, .ok (ev, enc2)) =>
            let f1 := { f with rot_encoders := setEncoder f.rot_encoders rid enc2 }
            match ev with
            | some evName =>
              match dispatch_input evName s.options c with
              | .error e => (tr0 ++ tre ++ [Act.dispatch evName], f1, c, some e)
              | .ok c2 =>
                (tr0 ++ tre ++ [Act.dispatch evName], setLast f1 pin state, c2, none)
            | none => (tr0 ++ tre, setLast f1 pin state, c, none)
    | none =>
      if button_edge s.active last state then
        match gpio_event read f c pin with
        | (trg, f1, c1, some e) => (tr0 ++ trg, f1, c1, some e)
        | (trg, f1, c1, none) =>
          (tr0 ++ trg ++ [Act.sleepUs (s.bouncetime * 1000)],
            setLast f1 pin state, c1, none)
      else (tr0, setLast f pin state, c, none)

def pollPins (read : Nat → Except PyExc Bool) :
    List (Nat × PinSettings) → Frontend → CoreState →
      List Act × Frontend × CoreState × Option PyExc
  | [], f, c => ([], f, c, none)
  | (pin, s) :: rest, f, c =>
    match pollPin read f c pin s with
    | (t, f1, c1, some e) => (t, f1, c1, some e)
    | (t, f1, c1, none) =>
      match pollPins read rest f1 c1 with
      | (t2, f2, c2, r) => (t ++ t2, f2, c2, r)

def pollPass (read : Nat → Except PyExc Bool) (f : Frontend) (c : CoreState) :
    List Act × Frontend × CoreState × Option PyExc :=
  match pollPins read f.pin_settings f c with
  | (t, f1, c1, some e) => (t, f1, c1, some e)
  | (t, f1, c1, none) => (t ++ [Act.sleepUs 500], f1, c1, none)

inductive LoopResult
  | stopped (f : Frontend) (c : CoreState)
  | fuelOut (f : Frontend) (c : CoreState)
  | crashed (e : PyExc) (f : Frontend) (c : CoreState)

def LoopResult.crashError : LoopResult → Option PyExc
  | .crashed e _ _ => some e
  | _ => none

def LoopResult.isStopped : LoopResult → Bool
  | .stopped _ _ => true
  | _ => false

def pollLoop (reads : Nat → Nat → Except PyExc Bool) (stop : Nat → Bool) :
    Nat → Nat → Frontend → CoreState → List Act × Nat × LoopResult
  | 0, k, f, c => ([], k, LoopResult.fuelOut f c)
  | fuel + 1, k, f, c =>
    if stop k then ([], k, LoopResult.stopped f c)
    else
      match pollPass (reads k) f c with
      | (t, f1, c1, some e) => (t, k, LoopResult.crashed e f1 c1)
      | (t, f1, c1, none) =>
        match pollLoop reads stop fuel (k + 1) f1 c1 with
        | (t2, k2, r) => (t ++ t2, k2, r)

inductive StopAction
  | setStopSignal
  | joinThread (timeoutSecs : Nat)
  | cleanupGPIO
deriving DecidableEq, BEq

def on_stop_actions (_loopExited : Bool) : List StopAction :=
  [StopAction.setStopSignal, StopAction.joinThread 1, StopAction.cleanupGPIO]

def activeLevel (s : PinSettings) : Bool :=
  if s.active == "active_high" then HIGH else LOW

def isDispatch : Act → Bool
  | Act.dispatch _ => true
  | _ => false

def hasDispatch (t : List Act) : Bool := t.any isDispatch

def ppPS : PinSettings :=
  { active := "active_low", event := "play_pause", bouncetime := 50, options := {} }

def bogusPS : PinSettings :=
  { active := "active_low", event := "bogus", bouncetime := 50, options := {} }

def idleCS : CoreState :=
  { playback_state := PlaybackState.stopped, volume := 50, tracklist := [],
    playlists := [], track_pos := 0 }

def demoCS : CoreState :=
  { playback_state := PlaybackState.stopped, volume := 50, tracklist := [⟨"old"⟩],
    playlists := [("p1", ⟨[⟨"a"⟩, ⟨"b"⟩]⟩)], track_pos := 0 }

def bogusFE : Frontend :=
  { pin_settings := [(17, bogusPS)], rot_encoders := [], last_states := fun _ => HIGH }

def twoPinFE : Frontend :=
  { pin_settings := [(17, ppPS), (27, ppPS)], rot_encoders := [],
    last_states := fun _ => HIGH }

theorem evalHandler_error_attribute (event : String) (opts : Options) (c : CoreState)
    (e : PyExc) (h : evalHandler event opts c = Except.error e) :
    e = PyExc.attributeError := by
  unfold evalHandler at h
  split at h
  all_goals try simp_all
  unfold handle_playlist at h
  split at h <;> simp_all

/-- C4: for every starting volume in the range 0 to 100 and every nonnegative
configured step (defaulting to 5 when unspecified), the volume-up handler sets
the volume to min of volume plus step and 100, the volume-down handler to max
of volume minus step and 0, both results stay inside the range, and in
particular volume-up with the default step from 98 gives exactly 100 while
volume-down with the default step from 3 gives exactly 0. -/
theorem volume_handlers_clamp (opts : Options) (c : CoreState)
    (hlo : 0 ≤ c.volume) (hhi : c.volume ≤ 100) (hstep : 0 ≤ opts.step.getD 5) :
    (handle_volume_up opts c).volume = min (c.volume + opts.step.getD 5) 100 ∧
    (handle_volume_down opts c).volume = max (c.volume - opts.step.getD 5) 0 ∧
    (0 ≤ (handle_volume_up opts c).volume ∧ (handle_volume_up opts c).volume ≤ 100 ∧
      0 ≤ (handle_volume_down opts c).volume ∧ (handle_volume_down opts c).volume ≤ 100) ∧
    (Options.mk none none none).step.getD 5 = 5 ∧
    (handle_volume_up {} { c with volume := 98 }).volume = 100 ∧
    (handle_volume_down {} { c with volume := 3 }).volume = 0 := by
  have h1 : (handle_volume_up opts c).volume = min (c.volume + opts.step.getD 5) 100 := rfl
  have h2 : (handle_volume_down opts c).volume = max (c.volume - opts.step.getD 5) 0 := rfl
  refine ⟨h1, h2, ⟨?_, ?_, ?_, ?_⟩, rfl, by norm_num [handle_volume_up],
    by norm_num [handle_volume_down]⟩ <;> simp only [h1, h2] <;> omega

theorem volume_handlers_clamp_witness :
    (handle_volume_up {} { idleCS with volume := 98 }).volume = 100 ∧
    (handle_volume_down {} { idleCS with volume := 3 }).volume = 0 :=
  ⟨(volume_handlers_clamp {} idleCS (by decide) (by decide) (by decide)).2.2.2.2.1,
   (volume_handlers_clamp {} idleCS (by decide) (by decide) (by decide)).2.2.2.2.2⟩

/-- C7: dispatching the playlist event with a playlist URI that resolves to a
playlist replaces the entire tracklist with exactly that playlist's tracks, in
order, discarding prior contents, and starts playback. -/
theorem playlist_handler_replaces_tracklist (opts : Options) (c : CoreState)
    (pl : Playlist) (hpl : lookup_playlist c opts.uri = some pl) :
    handle_playlist opts c =
      Except.ok { c with tracklist := pl.tracks,
                         playback_state := PlaybackState.playing } := by
  simp [handle_playlist, hpl]

theorem playlist_handler_replaces_tracklist_witness :
    handle_playlist { uri := some "p1" } demoCS =
      Except.ok { demoCS with tracklist := [⟨"a"⟩, ⟨"b"⟩],
                              playback_state := PlaybackState.playing } :=
  playlist_handler_replaces_tracklist { uri := some "p1" } demoCS ⟨[⟨"a"⟩, ⟨"b"⟩]⟩ rfl

/-- C9: for every transition of the decoder's 2-bit state to the
clockwise-adjacent state of the Gray cycle the decoder reports exactly one
clockwise event, for the counter-clockwise-adjacent state exactly one
counter-clockwise event, never both at once; a transition in which both bits
changed, or no bit changed, reports no event. -/
theorem quadrature_adjacent_transitions :
    ∀ prev next : Fin 4,
      (next = gray_next prev → rot_direction prev next = some RotDir.cw) ∧
      (prev = gray_next next → rot_direction prev next = some RotDir.ccw) ∧
      ¬(next = gray_next prev ∧ prev = gray_next next) ∧
      (prev.val ^^^ next.val = 3 → rot_direction prev next = none) ∧
      (prev = next → rot_direction prev next = none) := by
  decide

theorem quadrature_adjacent_transitions_witness :
    rot_direction 0 1 = some RotDir.cw ∧
    rot_direction 1 0 = some RotDir.ccw ∧
    rot_direction 0 3 = none :=
  ⟨(quadrature_adjacent_transitions 0 1).1 (by decide),
   (quadrature_adjacent_transitions 1 0).2.1 (by decide),
   (quadrature_adjacent_transitions 0 3).2.2.2.1 (by decide)⟩

/-- C10: dispatch_input reports a missing handler through a RuntimeError
exactly when evaluating the handler ends in an AttributeError, which includes
the case of the existing playlist handler whose body fails the attribute
access on a missing playlist, misreported as an unknown event; in every other
case the handler's result passes through unchanged. -/
theorem dispatch_runtime_error_iff_attribute_error :
    (∀ event opts c,
      dispatch_input event opts c =
          Except.error (PyExc.runtimeError
            ("Could not find input handler for event: " ++ event)) ↔
        evalHandler event opts c = Except.error PyExc.attributeError) ∧
    (∀ event opts c c2, evalHandler event opts c = Except.ok c2 →
      dispatch_input event opts c = Except.ok c2) ∧
    (∀ opts c, evalHandler "playlist" opts c = handle_playlist opts c) ∧
    handle_playlist { uri := some "nosuch" } idleCS = Except.error PyExc.attributeError ∧
    dispatch_input "playlist" { uri := some "nosuch" } idleCS =
      Except.error (PyExc.runtimeError "Could not find input handler for event: playlist") := by
  refine ⟨fun event opts c => ⟨fun h => ?_, fun h => ?_⟩,
    fun event opts c c2 h => ?_, fun opts c => rfl, rfl, rfl⟩
  · unfold dispatch_input at h
    cases heval : evalHandler event opts c with
    | ok c2 => rw [heval] at h; simp at h
    | error e =>
      have he := evalHandler_error_attribute event opts c e heval
      subst he
      rfl
  · unfold dispatch_input
    rw [h]
  · unfold dispatch_input
    rw [h]

theorem dispatch_runtime_error_iff_attribute_error_witness :
    dispatch_input "next" {} idleCS = Except.ok (handle_next {} idleCS) :=
  dispatch_runtime_error_iff_attribute_error.2.1 "next" {} idleCS (handle_next {} idleCS) rfl

theorem button_edge_iff (s : PinSettings) (last state : Bool) :
    button_edge s.active last state = true ↔
      (last = !(activeLevel s) ∧ state = activeLevel s) := by
  unfold button_edge activeLevel HIGH LOW
  cases h : (s.active == "active_high") <;> cases last <;> cases state <;> simp [h]

theorem get_event_no_sleep (read : Nat → Except PyExc Bool) (e : RotEncoder) (us : Nat) :
    Act.sleepUs us ∉ (RotEncoder.get_event read e).1 := by
  unfold RotEncoder.get_event
  split
  · split
    · simp
    · split
      · simp
      · simp
  · simp

theorem gpio_event_no_sleep (read : Nat → Except PyExc Bool) (f : Frontend)
    (c : CoreState) (pin : Nat) (us : Nat) :
    Act.sleepUs us ∉ (gpio_event read f c pin).1 := by
  unfold gpio_event
  cases hlp : lookupPin f.pin_settings pin with
  | none => simp
  | some settings =>
    dsimp only
    cases hfe : find_pin_rotenc f pin with
    | some enc =>
      dsimp only
      have hg := get_event_no_sleep read enc us
      rcases hge : RotEncoder.get_event read enc with ⟨tre, res⟩
      rw [hge] at hg
      simp only at hg
      rcases res with e | ⟨ev, enc2⟩
      · simpa using hg
      · rcases ev with _ | evName
        · simpa using hg
        · dsimp only
          rcases hdi : dispatch_input evName settings.options c with e | c2 <;>
            simp [List.mem_append, hg]
    | none =>
      by_cases hev : (settings.event == "") = true
      · simp [hev]
      · rw [if_neg hev]
        rcases hdi : dispatch_input settings.event settings.options c with e | c2 <;> simp

/-- C5: every debounce sleep produced while a single line is processed comes
from a line without a rotary-group id and lasts that line's configured
debounce duration; hence a line carrying a rotary-group id never incurs a
debounce delay in any polling pass. -/
theorem rotary_lines_never_debounced
    (read : Nat → Except PyExc Bool) (f : Frontend) (c : CoreState)
    (pin : Nat) (s : PinSettings) (us : Nat)
    (hmem : Act.sleepUs us ∈ (pollPin read f c pin s).1) :
    s.options.rotenc_id = none ∧ us = s.bouncetime * 1000 := by
  unfold pollPin at hmem
  cases hr : read pin with
  | error e => rw [hr] at hmem; simp at hmem
  | ok state =>
    rw [hr] at hmem
    simp only at hmem
    cases hrid : s.options.rotenc_id with
    | some rid =>
      exfalso
      rw [hrid] at hmem
      simp only at hmem
      by_cases hlast : (state == f.last_states pin) = true
      · rw [if_pos hlast] at hmem
        simp at hmem
      · rw [if_neg hlast] at hmem
        cases hle : lookupEnc f.rot_encoders rid with
        | none => rw [hle] at hmem; simp at hmem
        | some enc =>
          rw [hle] at hmem
          simp only at hmem
          have hg := get_event_no_sleep read enc us
          rcases hge : RotEncoder.get_event read enc with ⟨tre, res⟩
          rw [hge] at hg
          simp only at hg
          rw [hge] at hmem
          rcases res with e | ⟨ev, enc2⟩
          · simp at hmem
            exact hg hmem
          · rcases ev with _ | evName
            · simp at hmem
              exact hg hmem
            · dsimp only at hmem
              rcases hdi : dispatch_input evName s.options c with e | c2 <;>
                rw [hdi] at hmem <;> simp at hmem <;> exact hg hmem
    | none =>
      rw [hrid] at hmem
      simp only at hmem
      refine ⟨rfl, ?_⟩
      by_cases hedge : button_edge s.active (f.last_states pin) state = true
      · rw [if_pos hedge] at hmem
        rcases hgp : gpio_event read f c pin with ⟨trg, f1, c1, r⟩
        have hg := gpio_event_no_sleep read f c pin us
        rw [hgp] at hg
        simp only at hg
        rw [hgp] at hmem
        rcases r with _ | e
        · simp at hmem
          rcases hmem with h | h
          · exact absurd h hg
          · exact h
        · simp at hmem
          exact absurd hmem hg
      · rw [if_neg hedge] at hmem
        simp at hmem

theorem rotary_lines_never_debounced_witness :
    ppPS.options.rotenc_id = none ∧ 50000 = ppPS.bouncetime * 1000 :=
  rotary_lines_never_debounced (fun _ => Except.ok LOW) twoPinFE idleCS 17 ppPS 50000
    (by decide)

theorem pollPins_cons (read : Nat → Except PyExc Bool) (pin : Nat) (s : PinSettings)
    (rest : List (Nat × PinSettings)) (f : Frontend) (c : CoreState) :
    pollPins read ((pin, s) :: rest) f c =
      match pollPin read f c pin s with
      | (t, f1, c1, some e) => (t, f1, c1, some e)
      | (t, f1, c1, none) =>
        match pollPins read rest f1 c1 with
        | (t2, f2, c2, r) => (t ++ t2, f2, c2, r) := rfl

theorem gpio_event_plain (read : Nat → Except PyExc Bool) (f : Frontend)
    (c : CoreState) (pin : Nat) (s : PinSettings)
    (hlook : lookupPin f.pin_settings pin = some s)
    (hfind : find_pin_rotenc f pin = none)
    (hev : s.event ≠ "") :
    gpio_event read f c pin =
      match dispatch_input s.event s.options c with
      | .error e => ([Act.dispatch s.event], f, c, some e)
      | .ok c2 => ([Act.dispatch s.event], f, c2, none) := by
  unfold gpio_event
  rw [hlook]
  dsimp only
  rw [hfind]
  dsimp only
  have hev2 : (s.event == "") = false := by simpa using hev
  simp only [hev2, Bool.false_eq_true, if_false]

theorem pollPin_button (read : Nat → Except PyExc Bool) (f : Frontend)
    (c : CoreState) (pin : Nat) (s : PinSettings) (state : Bool)
    (hrot : s.options.rotenc_id = none)
    (hread : read pin = Except.ok state) :
    pollPin read f c pin s =
      if button_edge s.active (f.last_states pin) state then
        match gpio_event read f c pin with
        | (trg, f1, c1, some e) => ([Act.read pin state] ++ trg, f1, c1, some e)
        | (trg, f1, c1, none) =>
          ([Act.read pin state] ++ trg ++ [Act.sleepUs (s.bouncetime * 1000)],
            setLast f1 pin state, c1, none)
      else ([Act.read pin state], setLast f pin state, c, none) := by
  unfold pollPin
  rw [hread]
  dsimp only
  rw [hrot]

/-- C3: for a non-rotary button line with a configured polarity token and a
nonempty event name, processing the line hands an event to the dispatcher
exactly when the observed level transitions from the inactive level to the
active level, where the active level is LOW for polarity active_low and HIGH
for active_high; the releasing edge dispatches nothing. -/
theorem button_edge_dispatch_iff_activating
    (read : Nat → Except PyExc Bool) (f : Frontend) (c : CoreState)
    (pin : Nat) (s : PinSettings) (state : Bool)
    (hpol : s.active = "active_low" ∨ s.active = "active_high")
    (hrot : s.options.rotenc_id = none)
    (hfind : find_pin_rotenc f pin = none)
    (hlook : lookupPin f.pin_settings pin = some s)
    (hev : s.event ≠ "")
    (hread : read pin = Except.ok state) :
    hasDispatch (pollPin read f c pin s).1 = true ↔
      (f.last_states pin = !(activeLevel s) ∧ state = activeLevel s) := by
  rw [← button_edge_iff s (f.last_states pin) state]
  rw [pollPin_button read f c pin s state hrot hread]
  by_cases hedge : button_edge s.active (f.last_states pin) state = true
  · rw [if_pos hedge, hedge]
    rw [gpio_event_plain read f c pin s hlook hfind hev]
    rcases hdi : dispatch_input s.event s.options c with e | c2 <;>
      simp [hasDispatch, isDispatch]
  · rw [if_neg hedge]
    simp [hasDispatch, isDispatch, hedge]

theorem button_edge_dispatch_iff_activating_witness :
    hasDispatch (pollPin (fun _ => Except.ok LOW) twoPinFE idleCS 17 ppPS).1 = true ↔
      (twoPinFE.last_states 17 = !(activeLevel ppPS) ∧ LOW = activeLevel ppPS) :=
  button_edge_dispatch_iff_activating (fun _ => Except.ok LOW) twoPinFE idleCS 17 ppPS LOW
    (Or.inl rfl) rfl rfl rfl (by decide) rfl

/-- C6: on a button line's activating edge with a successful dispatch, the
pass over the line list emits the read, then the dispatch, then a sleep of
that line's configured debounce duration, all before any action of the
subsequent lines of the same pass, which are then processed from the updated
state. -/
theorem button_edge_debounce_blocks_pass
    (read : Nat → Except PyExc Bool) (f : Frontend) (c : CoreState)
    (pin : Nat) (s : PinSettings) (rest : List (Nat × PinSettings))
    (state : Bool) (c2 : CoreState)
    (hrot : s.options.rotenc_id = none)
    (hfind : find_pin_rotenc f pin = none)
    (hlook : lookupPin f.pin_settings pin = some s)
    (hev : s.event ≠ "")
    (hread : read pin = Except.ok state)
    (hedge : button_edge s.active (f.last_states pin) state = true)
    (hdisp : dispatch_input s.event s.options c = Except.ok c2) :
    (pollPins read ((pin, s) :: rest) f c).1 =
      Act.read pin state :: Act.dispatch s.event ::
        Act.sleepUs (s.bouncetime * 1000) ::
          (pollPins read rest (setLast f pin state) c2).1 ∧
    (pollPins read ((pin, s) :: rest) f c).2 =
      (pollPins read rest (setLast f pin state) c2).2 := by
  have hpp : pollPin read f c pin s =
      ([Act.read pin state, Act.dispatch s.event, Act.sleepUs (s.bouncetime * 1000)],
        setLast f pin state, c2, none) := by
    rw [pollPin_button read f c pin s state hrot hread, if_pos hedge,
      gpio_event_plain read f c pin s hlook hfind hev, hdisp]
    rfl
  rw [pollPins_cons, hpp]
  dsimp only
  rcases hrest : pollPins read rest (setLast f pin state) c2 with ⟨t2, f2, cc2, r⟩
  simp

theorem button_edge_debounce_blocks_pass_witness :
    (pollPins (fun _ => Except.ok LOW) [(17, ppPS), (27, ppPS)] twoPinFE idleCS).1 =
      Act.read 17 LOW :: Act.dispatch "play_pause" :: Act.sleepUs 50000 ::
        (pollPins (fun _ => Except.ok LOW) [(27, ppPS)] (setLast twoPinFE 17 LOW)
          { idleCS with playback_state := PlaybackState.playing }).1 ∧
    (pollPins (fun _ => Except.ok LOW) [(17, ppPS), (27, ppPS)] twoPinFE idleCS).2 =
      (pollPins (fun _ => Except.ok LOW) [(27, ppPS)] (setLast twoPinFE 17 LOW)
        { idleCS with playback_state := PlaybackState.playing }).2 :=
  button_edge_debounce_blocks_pass (fun _ => Except.ok LOW) twoPinFE idleCS 17 ppPS
    [(27, ppPS)] LOW { idleCS with playback_state := PlaybackState.playing }
    rfl rfl rfl (by decide) rfl rfl rfl

/-- C1 (amended): an event name whose handler evaluation fails the attribute
lookup makes dispatch_input raise a RuntimeError naming the event; the
polling loop does not catch it, so the dispatch is not merely dropped and
nothing is logged: the error escapes the pass and crashes the loop, which
completes no subsequent polling passes. -/
theorem unmapped_event_crashes_poll_loop
    (reads : Nat → Nat → Except PyExc Bool) (stop : Nat → Bool) (fuel : Nat)
    (f : Frontend) (c : CoreState) (pin : Nat) (s : PinSettings)
    (rest : List (Nat × PinSettings)) (state : Bool)
    (hps : f.pin_settings = (pin, s) :: rest)
    (hrot : s.options.rotenc_id = none)
    (hfind : find_pin_rotenc f pin = none)
    (hlook : lookupPin f.pin_settings pin = some s)
    (hev : s.event ≠ "")
    (hread : reads 0 pin = Except.ok state)
    (hedge : button_edge s.active (f.last_states pin) state = true)
    (hunmapped : evalHandler s.event s.options c = Except.error PyExc.attributeError)
    (hstop : stop 0 = false) :
    dispatch_input s.event s.options c =
      Except.error (PyExc.runtimeError
        ("Could not find input handler for event: " ++ s.event)) ∧
    pollLoop reads stop (fuel + 1) 0 f c =
      ([Act.read pin state, Act.dispatch s.event], 0,
        LoopResult.crashed
          (PyExc.runtimeError ("Could not find input handler for event: " ++ s.event))
          f c) := by
  have hdi : dispatch_input s.event s.options c =
      Except.error (PyExc.runtimeError
        ("Could not find input handler for event: " ++ s.event)) := by
    unfold dispatch_input
    rw [hunmapped]
  refine ⟨hdi, ?_⟩
  have hpp : pollPin (reads 0) f c pin s =
      ([Act.read pin state, Act.dispatch s.event], f, c,
        some (PyExc.runtimeError
          ("Could not find input handler for event: " ++ s.event))) := by
    rw [pollPin_button (reads 0) f c pin s state hrot hread, if_pos hedge,
      gpio_event_plain (reads 0) f c pin s hlook hfind hev, hdi]
    rfl
  have hpass : pollPass (reads 0) f c =
      ([Act.read pin state, Act.dispatch s.event], f, c,
        some (PyExc.runtimeError
          ("Could not find input handler for event: " ++ s.event))) := by
    unfold pollPass
    rw [hps, pollPins_cons, hpp]
  simp only [pollLoop, hstop, Bool.false_eq_true, if_false, hpass]

theorem unmapped_event_crashes_poll_loop_witness :
    pollLoop (fun _ _ => Except.ok LOW) (fun _ => false) 1 0 bogusFE idleCS =
      ([Act.read 17 LOW, Act.dispatch "bogus"], 0,
        LoopResult.crashed
          (PyExc.runtimeError "Could not find input handler for event: bogus")
          bogusFE idleCS) :=
  (unmapped_event_crashes_poll_loop (fun _ _ => Except.ok LOW) (fun _ => false) 0
    bogusFE idleCS 17 bogusPS [] LOW rfl rfl rfl rfl (by decide) rfl rfl rfl rfl).2

/-- C1 counterexample: with a single button line configured with event name
bogus, for which no handler exists, the activating edge makes the dispatch
raise a RuntimeError that escapes the polling loop: the run crashes during
pass 0 and completes no subsequent pass, rather than logging the failure,
dropping only that dispatch and continuing. -/
theorem unmapped_event_cex :
    (pollLoop (fun _ _ => Except.ok LOW) (fun _ => false) 3 0 bogusFE idleCS).2.2.crashError
        = some (PyExc.runtimeError "Could not find input handler for event: bogus") ∧
    (pollLoop (fun _ _ => Except.ok LOW) (fun _ => false) 3 0 bogusFE idleCS).2.1 = 0 :=
  ⟨rfl, rfl⟩

/-- C2 (amended): a failed hardware read of the first configured line is not
caught and nothing is logged: the error escapes the pass and crashes the
loop; the stored previous levels are left unchanged, but the pass does not
continue to the next line (the trace is empty) and no pass completes. -/
theorem hardware_read_failure_crashes_poll_loop
    (reads : Nat → Nat → Except PyExc Bool) (stop : Nat → Bool) (fuel : Nat)
    (f : Frontend) (c : CoreState) (pin : Nat) (s : PinSettings)
    (rest : List (Nat × PinSettings)) (e : PyExc)
    (hps : f.pin_settings = (pin, s) :: rest)
    (hread : reads 0 pin = Except.error e)
    (hstop : stop 0 = false) :
    pollLoop reads stop (fuel + 1) 0 f c = ([], 0, LoopResult.crashed e f c) := by
  have hpp : pollPin (reads 0) f c pin s = ([], f, c, some e) := by
    unfold pollPin
    rw [hread]
  have hpass : pollPass (reads 0) f c = ([], f, c, some e) := by
    unfold pollPass
    rw [hps, pollPins_cons, hpp]
  simp only [pollLoop, hstop, Bool.false_eq_true, if_false, hpass]

theorem hardware_read_failure_crashes_poll_loop_witness :
    pollLoop (fun _ _ => Except.error (PyExc.hardwareError 17)) (fun _ => false) 1 0
        twoPinFE idleCS =
      ([], 0, LoopResult.crashed (PyExc.hardwareError 17) twoPinFE idleCS) :=
  hardware_read_failure_crashes_poll_loop (fun _ _ => Except.error (PyExc.hardwareError 17))
    (fun _ => false) 0 twoPinFE idleCS 17 ppPS [(27, ppPS)] (PyExc.hardwareError 17)
    rfl rfl rfl

/-- C2 counterexample: with two configured lines, a failing hardware read of
line 17 crashes the run during pass 0: line 27 is never sampled (the trace is
empty) and no pass completes, rather than the failure being logged and the
loop continuing to the next line. -/
theorem hardware_read_failure_cex :
    pollLoop
        (fun _ p => if p = 17 then Except.error (PyExc.hardwareError 17) else Except.ok HIGH)
        (fun _ => false) 3 0 twoPinFE idleCS =
      ([], 0, LoopResult.crashed (PyExc.hardwareError 17) twoPinFE idleCS) := rfl

/-- C8: a stop signal that is set at a pass boundary makes the loop exit
immediately with no further pass executed; the stop procedure performs
set-signal, then a join bounded by a one second timeout, then the hardware
cleanup, and the cleanup is performed exactly once regardless of whether the
loop thread exited within the timeout. -/
theorem stop_signal_exit_and_cleanup_once
    (reads : Nat → Nat → Except PyExc Bool) (stop : Nat → Bool)
    (fuel k : Nat) (f : Frontend) (c : CoreState) (hstop : stop k = true) :
    pollLoop reads stop (fuel + 1) k f c = ([], k, LoopResult.stopped f c) ∧
    (∀ exited : Bool, (on_stop_actions exited).count StopAction.cleanupGPIO = 1) ∧
    (∀ exited : Bool,
      on_stop_actions exited =
        [StopAction.setStopSignal, StopAction.joinThread 1, StopAction.cleanupGPIO]) := by
  refine ⟨?_, fun _ => rfl, fun _ => rfl⟩
  simp [pollLoop, hstop]

theorem stop_signal_exit_and_cleanup_once_witness :
    pollLoop (fun _ _ => Except.ok LOW) (fun _ => true) 1 0 twoPinFE idleCS =
      ([], 0, LoopResult.stopped twoPinFE idleCS) :=
  (stop_signal_exit_and_cleanup_once (fun _ _ => Except.ok LOW) (fun _ => true) 0 0
    twoPinFE idleCS rfl).1
